import Mathlib

/-!
Verification of `rtrepack.h`: six create-or-init factory operations over
RT-Thread kernel primitives (semaphore, thread, mutex, event, mailbox,
message queue).  Each operation takes a caller-supplied handle slot and an
`is_dynamic` flag; the dynamic branch calls the kernel's `create` entry
point and writes its result into the slot, the static branch calls the
kernel's `init` entry point on the control block already stored in the
slot.

The embedding models pointers as natural numbers (`0` is `RT_NULL`),
status codes as integers, and the kernel as an oracle structure whose
entry points are arbitrary functions of their arguments.  Each generator
returns the status code, the final contents of the handle slot, and the
trace of kernel calls it made (with the exact arguments passed).
-/

/-- Pointer values; `0` models the null pointer. -/
abbrev Ptr := Nat

/-- The null pointer `RT_NULL`. -/
def RT_NULL : Ptr := 0

/-- The success status code `RT_EOK` (0 in RT-Thread). -/
def RT_EOK : Int := 0

/-- The errno constant `ENOMEM` (12); the generators return `-ENOMEM` on
dynamic allocation failure. -/
def ENOMEM : Int := 12

/-- One kernel entry-point invocation, recorded with the exact arguments
the factory passed.  There is one `create` and one `init` constructor per
primitive kind, mirroring the twelve kernel functions called from
`rtrepack.h`. -/
inductive KernelCall where
  | semCreate (name : String) (value : Nat) (flag : Nat)
  | semInit (sem : Ptr) (name : String) (value : Nat) (flag : Nat)
  | threadCreate (name : String) (entry : Nat) (param : Ptr)
      (stackSize : Nat) (priority : Nat) (tick : Nat)
  | threadInit (thread : Ptr) (name : String) (entry : Nat) (param : Ptr)
      (stackStart : Ptr) (stackSize : Nat) (priority : Nat) (tick : Nat)
  | mutexCreate (name : String) (flag : Nat)
  | mutexInit (mutex : Ptr) (name : String) (flag : Nat)
  | eventCreate (name : String) (flag : Nat)
  | eventInit (event : Ptr) (name : String) (flag : Nat)
  | mbCreate (name : String) (size : Nat) (flag : Nat)
  | mbInit (mb : Ptr) (name : String) (msgpool : Ptr) (size : Nat) (flag : Nat)
  | mqCreate (name : String) (msgSize : Nat) (poolSize : Nat) (flag : Nat)
  | mqInit (mq : Ptr) (name : String) (msgpool : Ptr) (msgSize : Nat)
      (poolSize : Nat) (flag : Nat)
  deriving DecidableEq, Repr

/-- `true` exactly on the dynamic-path (`create`) kernel entry points. -/
def KernelCall.isCreate : KernelCall → Bool
  | .semCreate .. => true
  | .threadCreate .. => true
  | .mutexCreate .. => true
  | .eventCreate .. => true
  | .mbCreate .. => true
  | .mqCreate .. => true
  | _ => false

/-- `true` exactly on the static-path (`init`) kernel entry points. -/
def KernelCall.isInit : KernelCall → Bool
  | .semInit .. => true
  | .threadInit .. => true
  | .mutexInit .. => true
  | .eventInit .. => true
  | .mbInit .. => true
  | .mqInit .. => true
  | _ => false

/-- The kernel capability surface consumed by the factory: for each of the
six primitive kinds, a `create` entry point returning a handle (null on
allocation failure) and an `init` entry point returning a status code.
Each entry point is an arbitrary function of the arguments the source
passes to it. -/
structure Kernel where
  sem_create : String → Nat → Nat → Ptr
  sem_init : Ptr → String → Nat → Nat → Int
  thread_create : String → Nat → Ptr → Nat → Nat → Nat → Ptr
  thread_init : Ptr → String → Nat → Ptr → Ptr → Nat → Nat → Nat → Int
  mutex_create : String → Nat → Ptr
  mutex_init : Ptr → String → Nat → Int
  event_create : String → Nat → Ptr
  event_init : Ptr → String → Nat → Int
  mb_create : String → Nat → Nat → Ptr
  mb_init : Ptr → String → Ptr → Nat → Nat → Int
  mq_create : String → Nat → Nat → Nat → Ptr
  mq_init : Ptr → String → Ptr → Nat → Nat → Nat → Int

/-- Observable outcome of one generator call: the returned status code,
the final contents of the caller-supplied handle slot, and the sequence of
kernel calls made. -/
structure GenResult where
  ret : Int
  slot : Ptr
  trace : List KernelCall
  deriving DecidableEq, Repr

/-- `semaphore_generator` from `rtrepack.h`.  `slot` is the value stored
in `*sem_ptr` at entry.  Dynamic branch: `*sem_ptr = rt_sem_create(name,
initial_value, flag)`, then null-check.  Static branch:
`rt_sem_init(*sem_ptr, name, initial_value, flag)`, propagating a
non-`RT_EOK` status unchanged. -/
def semaphore_generator (k : Kernel) (slot : Ptr) (name : String)
    (initial_value : Nat) (flag : Nat) (is_dynamic : Bool) : GenResult :=
  if is_dynamic then
    let h := k.sem_create name initial_value flag
    if h = RT_NULL then
      { ret := -ENOMEM, slot := h,
        trace := [.semCreate name initial_value flag] }
    else
      { ret := RT_EOK, slot := h,
        trace := [.semCreate name initial_value flag] }
  else
    let ret := k.sem_init slot name initial_value flag
    if ret ≠ RT_EOK then
      { ret := ret, slot := slot,
        trace := [.semInit slot name initial_value flag] }
    else
      { ret := RT_EOK, slot := slot,
        trace := [.semInit slot name initial_value flag] }

/-- `thread_generator` from `rtrepack.h`.  `slot` is the value stored in
`*th_ptr` at entry.  Dynamic branch: `*th_ptr = rt_thread_create(name,
entry, parameter, stack_size, priority, tick)` (note: `stack_addr` is not
passed), then null-check.  Static branch: `rt_thread_init(*th_ptr, name,
entry, parameter, stack_addr, stack_size, priority, tick)`. -/
def thread_generator (k : Kernel) (slot : Ptr) (name : String)
    (entry : Nat) (parameter : Ptr) (stack_addr : Ptr) (stack_size : Nat)
    (priority : Nat) (tick : Nat) (is_dynamic : Bool) : GenResult :=
  if is_dynamic then
    let h := k.thread_create name entry parameter stack_size priority tick
    if h = RT_NULL then
      { ret := -ENOMEM, slot := h,
        trace := [.threadCreate name entry parameter stack_size priority tick] }
    else
      { ret := RT_EOK, slot := h,
        trace := [.threadCreate name entry parameter stack_size priority tick] }
  else
    let ret := k.thread_init slot name entry parameter stack_addr
      stack_size priority tick
    if ret ≠ RT_EOK then
      { ret := ret, slot := slot,
        trace := [.threadInit slot name entry parameter stack_addr
          stack_size priority tick] }
    else
      { ret := RT_EOK, slot := slot,
        trace := [.threadInit slot name entry parameter stack_addr
          stack_size priority tick] }

/-- `mutex_generator` from `rtrepack.h`.  `slot` is the value stored in
`*mutex_ptr` at entry. -/
def mutex_generator (k : Kernel) (slot : Ptr) (name : String)
    (flag : Nat) (is_dynamic : Bool) : GenResult :=
  if is_dynamic then
    let h := k.mutex_create name flag
    if h = RT_NULL then
      { ret := -ENOMEM, slot := h, trace := [.mutexCreate name flag] }
    else
      { ret := RT_EOK, slot := h, trace := [.mutexCreate name flag] }
  else
    let ret := k.mutex_init slot name flag
    if ret ≠ RT_EOK then
      { ret := ret, slot := slot, trace := [.mutexInit slot name flag] }
    else
      { ret := RT_EOK, slot := slot, trace := [.mutexInit slot name flag] }

/-- `event_generator` from `rtrepack.h`.  `slot` is the value stored in
`*event_ptr` at entry. -/
def event_generator (k : Kernel) (slot : Ptr) (name : String)
    (flag : Nat) (is_dynamic : Bool) : GenResult :=
  if is_dynamic then
    let h := k.event_create name flag
    if h = RT_NULL then
      { ret := -ENOMEM, slot := h, trace := [.eventCreate name flag] }
    else
      { ret := RT_EOK, slot := h, trace := [.eventCreate name flag] }
  else
    let ret := k.event_init slot name flag
    if ret ≠ RT_EOK then
      { ret := ret, slot := slot, trace := [.eventInit slot name flag] }
    else
      { ret := RT_EOK, slot := slot, trace := [.eventInit slot name flag] }

/-- `mailbox_generator` from `rtrepack.h`.  `slot` is the value stored in
`*mb_ptr` at entry.  Dynamic branch: `*mb_ptr = rt_mb_create(name, size,
flag)` (note: `msgpool` is not passed).  Static branch:
`rt_mb_init(*mb_ptr, name, msgpool, size, flag)`. -/
def mailbox_generator (k : Kernel) (slot : Ptr) (name : String)
    (msgpool : Ptr) (size : Nat) (flag : Nat) (is_dynamic : Bool) : GenResult :=
  if is_dynamic then
    let h := k.mb_create name size flag
    if h = RT_NULL then
      { ret := -ENOMEM, slot := h, trace := [.mbCreate name size flag] }
    else
      { ret := RT_EOK, slot := h, trace := [.mbCreate name size flag] }
  else
    let ret := k.mb_init slot name msgpool size flag
    if ret ≠ RT_EOK then
      { ret := ret, slot := slot,
        trace := [.mbInit slot name msgpool size flag] }
    else
      { ret := RT_EOK, slot := slot,
        trace := [.mbInit slot name msgpool size flag] }

/-- `messagequeue_generator` from `rtrepack.h`.  `slot` is the value
stored in `*mq_ptr` at entry.  Dynamic branch: `*mq_ptr =
rt_mq_create(name, msg_size, pool_size, flag)` (note: `msgpool` is not
passed).  Static branch: `rt_mq_init(*mq_ptr, name, msgpool, msg_size,
pool_size, flag)`. -/
def messagequeue_generator (k : Kernel) (slot : Ptr) (name : String)
    (msgpool : Ptr) (msg_size : Nat) (pool_size : Nat) (flag : Nat)
    (is_dynamic : Bool) : GenResult :=
  if is_dynamic then
    let h := k.mq_create name msg_size pool_size flag
    if h = RT_NULL then
      { ret := -ENOMEM, slot := h,
        trace := [.mqCreate name msg_size pool_size flag] }
    else
      { ret := RT_EOK, slot := h,
        trace := [.mqCreate name msg_size pool_size flag] }
  else
    let ret := k.mq_init slot name msgpool msg_size pool_size flag
    if ret ≠ RT_EOK then
      { ret := ret, slot := slot,
        trace := [.mqInit slot name msgpool msg_size pool_size flag] }
    else
      { ret := RT_EOK, slot := slot,
        trace := [.mqInit slot name msgpool msg_size pool_size flag] }

/-- A concrete kernel whose `create` entry points all fail (return the
null handle) and whose `init` entry points all succeed. -/
def heapExhaustedKernel : Kernel where
  sem_create := fun _ _ _ => RT_NULL
  sem_init := fun _ _ _ _ => RT_EOK
  thread_create := fun _ _ _ _ _ _ => RT_NULL
  thread_init := fun _ _ _ _ _ _ _ _ => RT_EOK
  mutex_create := fun _ _ => RT_NULL
  mutex_init := fun _ _ _ => RT_EOK
  event_create := fun _ _ => RT_NULL
  event_init := fun _ _ _ => RT_EOK
  mb_create := fun _ _ _ => RT_NULL
  mb_init := fun _ _ _ _ _ => RT_EOK
  mq_create := fun _ _ _ _ => RT_NULL
  mq_init := fun _ _ _ _ _ _ => RT_EOK

/-- A concrete kernel whose `create` entry points all succeed (return the
non-null handle `42`) and whose `init` entry points all reject with
status `-5`. -/
def rejectingKernel : Kernel where
  sem_create := fun _ _ _ => 42
  sem_init := fun _ _ _ _ => -5
  thread_create := fun _ _ _ _ _ _ => 42
  thread_init := fun _ _ _ _ _ _ _ _ => -5
  mutex_create := fun _ _ => 42
  mutex_init := fun _ _ _ => -5
  event_create := fun _ _ => 42
  event_init := fun _ _ _ => -5
  mb_create := fun _ _ _ => 42
  mb_init := fun _ _ _ _ _ => -5
  mq_create := fun _ _ _ _ => 42
  mq_init := fun _ _ _ _ _ _ => -5

/-- A concrete kernel on which every entry point succeeds: `create`
returns the non-null handle `42`, `init` returns `RT_EOK`. -/
def okKernel : Kernel where
  sem_create := fun _ _ _ => 42
  sem_init := fun _ _ _ _ => RT_EOK
  thread_create := fun _ _ _ _ _ _ => 42
  thread_init := fun _ _ _ _ _ _ _ _ => RT_EOK
  mutex_create := fun _ _ => 42
  mutex_init := fun _ _ _ => RT_EOK
  event_create := fun _ _ => 42
  event_init := fun _ _ _ => RT_EOK
  mb_create := fun _ _ _ => 42
  mb_init := fun _ _ _ _ _ => RT_EOK
  mq_create := fun _ _ _ _ => 42
  mq_init := fun _ _ _ _ _ _ => RT_EOK

/-- C2: for every one of the six operations called with `is_dynamic`
true, the returned status is `-ENOMEM` exactly when the kernel's `create`
entry point for that kind returned the null handle, and `RT_EOK`
otherwise — a dynamic-branch call fails for no other reason. -/
theorem C2_dynamic_enomem_exactly_on_null_handle (k : Kernel) (s : Ptr)
    (name : String) (v flag : Nat) (entry param : Nat)
    (stack : Ptr) (ssize prio tick : Nat) (pool : Ptr) (msz psz : Nat) :
    (semaphore_generator k s name v flag true).ret =
      (if k.sem_create name v flag = RT_NULL then -ENOMEM else RT_EOK) ∧
    (thread_generator k s name entry param stack ssize prio tick true).ret =
      (if k.thread_create name entry param ssize prio tick = RT_NULL
        then -ENOMEM else RT_EOK) ∧
    (mutex_generator k s name flag true).ret =
      (if k.mutex_create name flag = RT_NULL then -ENOMEM else RT_EOK) ∧
    (event_generator k s name flag true).ret =
      (if k.event_create name flag = RT_NULL then -ENOMEM else RT_EOK) ∧
    (mailbox_generator k s name pool msz flag true).ret =
      (if k.mb_create name msz flag = RT_NULL then -ENOMEM else RT_EOK) ∧
    (messagequeue_generator k s name pool msz psz flag true).ret =
      (if k.mq_create name msz psz flag = RT_NULL then -ENOMEM else RT_EOK) := by
  refine ⟨?_, ?_, ?_, ?_, ?_, ?_⟩ <;>
    simp only [semaphore_generator, thread_generator, mutex_generator,
      event_generator, mailbox_generator, messagequeue_generator,
      if_true] <;>
    split <;> simp_all

/-- C1 (as stated) is false: `semaphore_generator` called dynamically with
entry slot contents `7` against a heap-exhausted kernel fails, yet the
slot at return holds `RT_NULL` (= 0), not the entry value `7` — the
dynamic branch writes the kernel's return value into the slot before the
null check. -/
theorem C1_counterexample :
    (semaphore_generator heapExhaustedKernel 7 "sem0" 1 0 true).ret ≠ RT_EOK ∧
    (semaphore_generator heapExhaustedKernel 7 "sem0" 1 0 true).slot ≠ 7 := by
  decide

/-- C1 amended: for every one of the six operations, on a failing call the
handle slot at return holds the entry value only on the static branch; on
the dynamic branch a failing call leaves the slot holding `RT_NULL` (the
null handle the kernel returned), overwriting whatever the slot held at
entry. -/
theorem C1_amended_slot_on_failure (k : Kernel) (s : Ptr) (name : String)
    (v flag : Nat) (entry param : Nat) (stack : Ptr)
    (ssize prio tick : Nat) (pool : Ptr) (msz psz : Nat) (d : Bool) :
    ((semaphore_generator k s name v flag d).ret ≠ RT_EOK →
      (semaphore_generator k s name v flag d).slot =
        if d then RT_NULL else s) ∧
    ((thread_generator k s name entry param stack ssize prio tick d).ret ≠ RT_EOK →
      (thread_generator k s name entry param stack ssize prio tick d).slot =
        if d then RT_NULL else s) ∧
    ((mutex_generator k s name flag d).ret ≠ RT_EOK →
      (mutex_generator k s name flag d).slot = if d then RT_NULL else s) ∧
    ((event_generator k s name flag d).ret ≠ RT_EOK →
      (event_generator k s name flag d).slot = if d then RT_NULL else s) ∧
    ((mailbox_generator k s name pool msz flag d).ret ≠ RT_EOK →
      (mailbox_generator k s name pool msz flag d).slot =
        if d then RT_NULL else s) ∧
    ((messagequeue_generator k s name pool msz psz flag d).ret ≠ RT_EOK →
      (messagequeue_generator k s name pool msz psz flag d).slot =
        if d then RT_NULL else s) := by
  refine ⟨?_, ?_, ?_, ?_, ?_, ?_⟩ <;>
    cases d <;>
    simp only [semaphore_generator, thread_generator, mutex_generator,
      event_generator, mailbox_generator, messagequeue_generator,
      Bool.false_eq_true, if_true, if_false] <;>
    split <;> simp_all

/-- Witness for the amended C1: concrete failing dynamic calls leave the
slot holding `RT_NULL`, concrete failing static calls leave the slot
holding the entry value `7`. -/
theorem C1_amended_witness :
    ((semaphore_generator heapExhaustedKernel 7 "n" 1 2 true).slot = RT_NULL ∧
     (thread_generator heapExhaustedKernel 7 "n" 3 4 5 6 8 9 true).slot = RT_NULL ∧
     (mutex_generator heapExhaustedKernel 7 "n" 2 true).slot = RT_NULL ∧
     (event_generator heapExhaustedKernel 7 "n" 2 true).slot = RT_NULL ∧
     (mailbox_generator heapExhaustedKernel 7 "n" 9 16 2 true).slot = RT_NULL ∧
     (messagequeue_generator heapExhaustedKernel 7 "n" 9 16 64 2 true).slot = RT_NULL) ∧
    ((semaphore_generator rejectingKernel 7 "n" 1 2 false).slot = 7 ∧
     (thread_generator rejectingKernel 7 "n" 3 4 5 6 8 9 false).slot = 7 ∧
     (mutex_generator rejectingKernel 7 "n" 2 false).slot = 7 ∧
     (event_generator rejectingKernel 7 "n" 2 false).slot = 7 ∧
     (mailbox_generator rejectingKernel 7 "n" 9 16 2 false).slot = 7 ∧
     (messagequeue_generator rejectingKernel 7 "n" 9 16 64 2 false).slot = 7) := by
  obtain ⟨d1, d2, d3, d4, d5, d6⟩ :=
    C1_amended_slot_on_failure heapExhaustedKernel 7 "n" 1 2 3 4 5 6 8 9 9 16 64 true
  obtain ⟨s1, s2, s3, s4, s5, s6⟩ :=
    C1_amended_slot_on_failure rejectingKernel 7 "n" 1 2 3 4 5 6 8 9 9 16 64 false
  exact ⟨⟨by simpa using d1 (by decide), by simpa using d2 (by decide),
          by simpa using d3 (by decide), by simpa using d4 (by decide),
          by simpa using d5 (by decide), by simpa using d6 (by decide)⟩,
         ⟨by simpa using s1 (by decide), by simpa using s2 (by decide),
          by simpa using s3 (by decide), by simpa using s4 (by decide),
          by simpa using s5 (by decide), by simpa using s6 (by decide)⟩⟩

/-- C3: for every one of the six operations called with `is_dynamic`
false, if the kernel's `init` entry point returns a non-success status,
the operation returns exactly that status, unchanged. -/
theorem C3_static_propagates_kernel_status (k : Kernel) (s : Ptr)
    (name : String) (v flag : Nat) (entry param : Nat) (stack : Ptr)
    (ssize prio tick : Nat) (pool : Ptr) (msz psz : Nat) :
    (k.sem_init s name v flag ≠ RT_EOK →
      (semaphore_generator k s name v flag false).ret =
        k.sem_init s name v flag) ∧
    (k.thread_init s name entry param stack ssize prio tick ≠ RT_EOK →
      (thread_generator k s name entry param stack ssize prio tick false).ret =
        k.thread_init s name entry param stack ssize prio tick) ∧
    (k.mutex_init s name flag ≠ RT_EOK →
      (mutex_generator k s name flag false).ret = k.mutex_init s name flag) ∧
    (k.event_init s name flag ≠ RT_EOK →
      (event_generator k s name flag false).ret = k.event_init s name flag) ∧
    (k.mb_init s name pool msz flag ≠ RT_EOK →
      (mailbox_generator k s name pool msz flag false).ret =
        k.mb_init s name pool msz flag) ∧
    (k.mq_init s name pool msz psz flag ≠ RT_EOK →
      (messagequeue_generator k s name pool msz psz flag false).ret =
        k.mq_init s name pool msz psz flag) := by
  refine ⟨?_, ?_, ?_, ?_, ?_, ?_⟩ <;>
    simp only [semaphore_generator, thread_generator, mutex_generator,
      event_generator, mailbox_generator, messagequeue_generator,
      Bool.false_eq_true, if_false] <;>
    split <;> simp_all

/-- Witness for C3: against a kernel whose `init` entry points all return
`-5`, every static-branch call returns `-5` — in particular the mailbox
one. -/
theorem C3_witness :
    (semaphore_generator rejectingKernel 5 "x" 1 0 false).ret = -5 ∧
    (thread_generator rejectingKernel 5 "x" 2 3 4 6 7 8 false).ret = -5 ∧
    (mutex_generator rejectingKernel 5 "x" 0 false).ret = -5 ∧
    (event_generator rejectingKernel 5 "x" 0 false).ret = -5 ∧
    (mailbox_generator rejectingKernel 5 "mb0" 9 16 1 false).ret = -5 ∧
    (messagequeue_generator rejectingKernel 5 "x" 9 16 64 0 false).ret = -5 := by
  obtain ⟨h1, h2, h3, h4, h5, h6⟩ :=
    C3_static_propagates_kernel_status rejectingKernel 5 "x" 1 0 2 3 4 6 7 8 9 16 64
  obtain ⟨m1, m2, m3, m4, m5, m6⟩ :=
    C3_static_propagates_kernel_status rejectingKernel 5 "mb0" 1 0 2 3 4 6 7 8 9 16 64
  exact ⟨(h1 (by decide)).trans (by decide), (h2 (by decide)).trans (by decide),
         (h3 (by decide)).trans (by decide), (h4 (by decide)).trans (by decide),
         (m5 (by decide)).trans (by decide), (h6 (by decide)).trans (by decide)⟩

/-- C4: for every one of the six operations, when the underlying kernel
call succeeds the operation returns `RT_EOK`, and on the dynamic branch
the non-null handle the kernel returned has been written into the
handle slot. -/
theorem C4_success_returns_eok_and_writes_handle (k : Kernel) (s : Ptr)
    (name : String) (v flag : Nat) (entry param : Nat) (stack : Ptr)
    (ssize prio tick : Nat) (pool : Ptr) (msz psz : Nat) :
    (k.sem_create name v flag ≠ RT_NULL →
      (semaphore_generator k s name v flag true).ret = RT_EOK ∧
      (semaphore_generator k s name v flag true).slot = k.sem_create name v flag) ∧
    (k.thread_create name entry param ssize prio tick ≠ RT_NULL →
      (thread_generator k s name entry param stack ssize prio tick true).ret = RT_EOK ∧
      (thread_generator k s name entry param stack ssize prio tick true).slot =
        k.thread_create name entry param ssize prio tick) ∧
    (k.mutex_create name flag ≠ RT_NULL →
      (mutex_generator k s name flag true).ret = RT_EOK ∧
      (mutex_generator k s name flag true).slot = k.mutex_create name flag) ∧
    (k.event_create name flag ≠ RT_NULL →
      (event_generator k s name flag true).ret = RT_EOK ∧
      (event_generator k s name flag true).slot = k.event_create name flag) ∧
    (k.mb_create name msz flag ≠ RT_NULL →
      (mailbox_generator k s name pool msz flag true).ret = RT_EOK ∧
      (mailbox_generator k s name pool msz flag true).slot = k.mb_create name msz flag) ∧
    (k.mq_create name msz psz flag ≠ RT_NULL →
      (messagequeue_generator k s name pool msz psz flag true).ret = RT_EOK ∧
      (messagequeue_generator k s name pool msz psz flag true).slot =
        k.mq_create name msz psz flag) ∧
    (k.sem_init s name v flag = RT_EOK →
      (semaphore_generator k s name v flag false).ret = RT_EOK) ∧
    (k.thread_init s name entry param stack ssize prio tick = RT_EOK →
      (thread_generator k s name entry param stack ssize prio tick false).ret = RT_EOK) ∧
    (k.mutex_init s name flag = RT_EOK →
      (mutex_generator k s name flag false).ret = RT_EOK) ∧
    (k.event_init s name flag = RT_EOK →
      (event_generator k s name flag false).ret = RT_EOK) ∧
    (k.mb_init s name pool msz flag = RT_EOK →
      (mailbox_generator k s name pool msz flag false).ret = RT_EOK) ∧
    (k.mq_init s name pool msz psz flag = RT_EOK →
      (messagequeue_generator k s name pool msz psz flag false).ret = RT_EOK) := by
  refine ⟨?_, ?_, ?_, ?_, ?_, ?_, ?_, ?_, ?_, ?_, ?_, ?_⟩ <;>
    simp only [semaphore_generator, thread_generator, mutex_generator,
      event_generator, mailbox_generator, messagequeue_generator,
      Bool.false_eq_true, if_true, if_false] <;>
    split <;> simp_all

/-- Witness for C4: on a kernel whose entry points all succeed, every
dynamic call returns `RT_EOK` with the kernel's handle `42` in the slot,
and every static call returns `RT_EOK`. -/
theorem C4_witness :
    ((semaphore_generator okKernel 0 "n" 1 2 true).ret = RT_EOK ∧
     (semaphore_generator okKernel 0 "n" 1 2 true).slot = 42) ∧
    ((thread_generator okKernel 0 "n" 3 4 5 6 8 9 true).ret = RT_EOK ∧
     (thread_generator okKernel 0 "n" 3 4 5 6 8 9 true).slot = 42) ∧
    ((mutex_generator okKernel 0 "n" 2 true).ret = RT_EOK ∧
     (mutex_generator okKernel 0 "n" 2 true).slot = 42) ∧
    ((event_generator okKernel 0 "n" 2 true).ret = RT_EOK ∧
     (event_generator okKernel 0 "n" 2 true).slot = 42) ∧
    ((mailbox_generator okKernel 0 "n" 9 16 2 true).ret = RT_EOK ∧
     (mailbox_generator okKernel 0 "n" 9 16 2 true).slot = 42) ∧
    ((messagequeue_generator okKernel 0 "n" 9 16 64 2 true).ret = RT_EOK ∧
     (messagequeue_generator okKernel 0 "n" 9 16 64 2 true).slot = 42) ∧
    (semaphore_generator okKernel 7 "n" 1 2 false).ret = RT_EOK ∧
    (thread_generator okKernel 7 "n" 3 4 5 6 8 9 false).ret = RT_EOK ∧
    (mutex_generator okKernel 7 "n" 2 false).ret = RT_EOK ∧
    (event_generator okKernel 7 "n" 2 false).ret = RT_EOK ∧
    (mailbox_generator okKernel 7 "n" 9 16 2 false).ret = RT_EOK ∧
    (messagequeue_generator okKernel 7 "n" 9 16 64 2 false).ret = RT_EOK := by
  obtain ⟨d1, d2, d3, d4, d5, d6, _, _, _, _, _, _⟩ :=
    C4_success_returns_eok_and_writes_handle okKernel 0 "n" 1 2 3 4 5 6 8 9 9 16 64
  obtain ⟨_, _, _, _, _, _, s1, s2, s3, s4, s5, s6⟩ :=
    C4_success_returns_eok_and_writes_handle okKernel 7 "n" 1 2 3 4 5 6 8 9 9 16 64
  exact ⟨by simpa [okKernel] using d1 (by decide),
         by simpa [okKernel] using d2 (by decide),
         by simpa [okKernel] using d3 (by decide),
         by simpa [okKernel] using d4 (by decide),
         by simpa [okKernel] using d5 (by decide),
         by simpa [okKernel] using d6 (by decide),
         s1 (by decide), s2 (by decide), s3 (by decide),
         s4 (by decide), s5 (by decide), s6 (by decide)⟩

/-- C5: for every one of the six operations, the dynamic branch returns
only `RT_EOK` or the factory-generated `-ENOMEM` (the latter exactly when
the create call returned a null handle) and invokes only `create` entry
points, while the static branch returns exactly the status the `init`
entry point produced (so it never substitutes a factory-generated code)
and invokes only `init` entry points — the two failure domains never
cross branches. -/
theorem C5_failure_domains_never_cross (k : Kernel) (s : Ptr)
    (name : String) (v flag : Nat) (entry param : Nat) (stack : Ptr)
    (ssize prio tick : Nat) (pool : Ptr) (msz psz : Nat) :
    (((semaphore_generator k s name v flag true).ret = RT_EOK ∨
      (semaphore_generator k s name v flag true).ret = -ENOMEM) ∧
     ((semaphore_generator k s name v flag true).ret = -ENOMEM ↔
       k.sem_create name v flag = RT_NULL) ∧
     (semaphore_generator k s name v flag true).trace.all KernelCall.isCreate ∧
     (semaphore_generator k s name v flag false).ret = k.sem_init s name v flag ∧
     (semaphore_generator k s name v flag false).trace.all KernelCall.isInit) ∧
    (((thread_generator k s name entry param stack ssize prio tick true).ret = RT_EOK ∨
      (thread_generator k s name entry param stack ssize prio tick true).ret = -ENOMEM) ∧
     ((thread_generator k s name entry param stack ssize prio tick true).ret = -ENOMEM ↔
       k.thread_create name entry param ssize prio tick = RT_NULL) ∧
     (thread_generator k s name entry param stack ssize prio tick true).trace.all
       KernelCall.isCreate ∧
     (thread_generator k s name entry param stack ssize prio tick false).ret =
       k.thread_init s name entry param stack ssize prio tick ∧
     (thread_generator k s name entry param stack ssize prio tick false).trace.all
       KernelCall.isInit) ∧
    (((mutex_generator k s name flag true).ret = RT_EOK ∨
      (mutex_generator k s name flag true).ret = -ENOMEM) ∧
     ((mutex_generator k s name flag true).ret = -ENOMEM ↔
       k.mutex_create name flag = RT_NULL) ∧
     (mutex_generator k s name flag true).trace.all KernelCall.isCreate ∧
     (mutex_generator k s name flag false).ret = k.mutex_init s name flag ∧
     (mutex_generator k s name flag false).trace.all KernelCall.isInit) ∧
    (((event_generator k s name flag true).ret = RT_EOK ∨
      (event_generator k s name flag true).ret = -ENOMEM) ∧
     ((event_generator k s name flag true).ret = -ENOMEM ↔
       k.event_create name flag = RT_NULL) ∧
     (event_generator k s name flag true).trace.all KernelCall.isCreate ∧
     (event_generator k s name flag false).ret = k.event_init s name flag ∧
     (event_generator k s name flag false).trace.all KernelCall.isInit) ∧
    (((mailbox_generator k s name pool msz flag true).ret = RT_EOK ∨
      (mailbox_generator k s name pool msz flag true).ret = -ENOMEM) ∧
     ((mailbox_generator k s name pool msz flag true).ret = -ENOMEM ↔
       k.mb_create name msz flag = RT_NULL) ∧
     (mailbox_generator k s name pool msz flag true).trace.all KernelCall.isCreate ∧
     (mailbox_generator k s name pool msz flag false).ret =
       k.mb_init s name pool msz flag ∧
     (mailbox_generator k s name pool msz flag false).trace.all KernelCall.isInit) ∧
    (((messagequeue_generator k s name pool msz psz flag true).ret = RT_EOK ∨
      (messagequeue_generator k s name pool msz psz flag true).ret = -ENOMEM) ∧
     ((messagequeue_generator k s name pool msz psz flag true).ret = -ENOMEM ↔
       k.mq_create name msz psz flag = RT_NULL) ∧
     (messagequeue_generator k s name pool msz psz flag true).trace.all
       KernelCall.isCreate ∧
     (messagequeue_generator k s name pool msz psz flag false).ret =
       k.mq_init s name pool msz psz flag ∧
     (messagequeue_generator k s name pool msz psz flag false).trace.all
       KernelCall.isInit) := by
  refine ⟨?_, ?_, ?_, ?_, ?_, ?_⟩ <;>
    refine ⟨?_, ?_, ?_, ?_, ?_⟩ <;>
    simp only [semaphore_generator, thread_generator, mutex_generator,
      event_generator, mailbox_generator, messagequeue_generator,
      Bool.false_eq_true, if_true, if_false] <;>
    split <;>
    simp_all [KernelCall.isCreate, KernelCall.isInit, RT_EOK, ENOMEM]

/-- C6: for every one of the six operations called with `is_dynamic`
false, the only effect on the kernel is a single `init` call receiving
the caller-supplied control-block address (the slot contents) and, for
Thread/Mailbox/MessageQueue, the caller-supplied backing-storage address
and size, all verbatim — the factory performs no allocation and passes
the backing storage by reference, unmodified. -/
theorem C6_static_forwards_arguments_verbatim (k : Kernel) (s : Ptr)
    (name : String) (v flag : Nat) (entry param : Nat) (stack : Ptr)
    (ssize prio tick : Nat) (pool : Ptr) (msz psz : Nat) :
    (semaphore_generator k s name v flag false).trace =
      [KernelCall.semInit s name v flag] ∧
    (thread_generator k s name entry param stack ssize prio tick false).trace =
      [KernelCall.threadInit s name entry param stack ssize prio tick] ∧
    (mutex_generator k s name flag false).trace =
      [KernelCall.mutexInit s name flag] ∧
    (event_generator k s name flag false).trace =
      [KernelCall.eventInit s name flag] ∧
    (mailbox_generator k s name pool msz flag false).trace =
      [KernelCall.mbInit s name pool msz flag] ∧
    (messagequeue_generator k s name pool msz psz flag false).trace =
      [KernelCall.mqInit s name pool msz psz flag] := by
  refine ⟨?_, ?_, ?_, ?_, ?_, ?_⟩ <;>
    simp only [semaphore_generator, thread_generator, mutex_generator,
      event_generator, mailbox_generator, messagequeue_generator,
      Bool.false_eq_true, if_false] <;>
    split <;> rfl

/-- C7: for every one of the six operations and every input, the call
trace is exactly one kernel call — the kind's `create` entry point when
`is_dynamic` is true, the kind's `init` entry point when it is false —
so the operation never retries and makes no other kernel call. -/
theorem C7_exactly_one_kernel_call (k : Kernel) (s : Ptr) (name : String)
    (v flag : Nat) (entry param : Nat) (stack : Ptr)
    (ssize prio tick : Nat) (pool : Ptr) (msz psz : Nat) (d : Bool) :
    (semaphore_generator k s name v flag d).trace =
      (if d then [KernelCall.semCreate name v flag]
       else [KernelCall.semInit s name v flag]) ∧
    (thread_generator k s name entry param stack ssize prio tick d).trace =
      (if d then [KernelCall.threadCreate name entry param ssize prio tick]
       else [KernelCall.threadInit s name entry param stack ssize prio tick]) ∧
    (mutex_generator k s name flag d).trace =
      (if d then [KernelCall.mutexCreate name flag]
       else [KernelCall.mutexInit s name flag]) ∧
    (event_generator k s name flag d).trace =
      (if d then [KernelCall.eventCreate name flag]
       else [KernelCall.eventInit s name flag]) ∧
    (mailbox_generator k s name pool msz flag d).trace =
      (if d then [KernelCall.mbCreate name msz flag]
       else [KernelCall.mbInit s name pool msz flag]) ∧
    (messagequeue_generator k s name pool msz psz flag d).trace =
      (if d then [KernelCall.mqCreate name msz psz flag]
       else [KernelCall.mqInit s name pool msz psz flag]) := by
  refine ⟨?_, ?_, ?_, ?_, ?_, ?_⟩ <;>
    cases d <;>
    simp only [semaphore_generator, thread_generator, mutex_generator,
      event_generator, mailbox_generator, messagequeue_generator,
      Bool.false_eq_true, if_true, if_false] <;>
    split <;> rfl

/-- C8: for every one of the six operations called with `is_dynamic`
true, the handle slot at return holds the kernel create call's return
value unconditionally; hence a failing dynamic call leaves `RT_NULL` in
the slot regardless of the slot's entry contents. -/
theorem C8_dynamic_slot_written_unconditionally (k : Kernel) (s : Ptr)
    (name : String) (v flag : Nat) (entry param : Nat) (stack : Ptr)
    (ssize prio tick : Nat) (pool : Ptr) (msz psz : Nat) :
    ((semaphore_generator k s name v flag true).slot =
       k.sem_create name v flag ∧
     ((semaphore_generator k s name v flag true).ret ≠ RT_EOK →
       (semaphore_generator k s name v flag true).slot = RT_NULL)) ∧
    ((thread_generator k s name entry param stack ssize prio tick true).slot =
       k.thread_create name entry param ssize prio tick ∧
     ((thread_generator k s name entry param stack ssize prio tick true).ret ≠ RT_EOK →
       (thread_generator k s name entry param stack ssize prio tick true).slot =
         RT_NULL)) ∧
    ((mutex_generator k s name flag true).slot = k.mutex_create name flag ∧
     ((mutex_generator k s name flag true).ret ≠ RT_EOK →
       (mutex_generator k s name flag true).slot = RT_NULL)) ∧
    ((event_generator k s name flag true).slot = k.event_create name flag ∧
     ((event_generator k s name flag true).ret ≠ RT_EOK →
       (event_generator k s name flag true).slot = RT_NULL)) ∧
    ((mailbox_generator k s name pool msz flag true).slot =
       k.mb_create name msz flag ∧
     ((mailbox_generator k s name pool msz flag true).ret ≠ RT_EOK →
       (mailbox_generator k s name pool msz flag true).slot = RT_NULL)) ∧
    ((messagequeue_generator k s name pool msz psz flag true).slot =
       k.mq_create name msz psz flag ∧
     ((messagequeue_generator k s name pool msz psz flag true).ret ≠ RT_EOK →
       (messagequeue_generator k s name pool msz psz flag true).slot = RT_NULL)) := by
  refine ⟨?_, ?_, ?_, ?_, ?_, ?_⟩ <;>
    simp only [semaphore_generator, thread_generator, mutex_generator,
      event_generator, mailbox_generator, messagequeue_generator, if_true] <;>
    split <;> simp_all

/-- Witness for C8: concrete failing dynamic calls with entry slot
contents `7` leave `RT_NULL` in the slot for all six operations. -/
theorem C8_witness :
    (semaphore_generator heapExhaustedKernel 7 "w" 1 2 true).slot = RT_NULL ∧
    (thread_generator heapExhaustedKernel 7 "w" 3 4 5 6 8 9 true).slot = RT_NULL ∧
    (mutex_generator heapExhaustedKernel 7 "w" 2 true).slot = RT_NULL ∧
    (event_generator heapExhaustedKernel 7 "w" 2 true).slot = RT_NULL ∧
    (mailbox_generator heapExhaustedKernel 7 "w" 9 16 2 true).slot = RT_NULL ∧
    (messagequeue_generator heapExhaustedKernel 7 "w" 9 16 64 2 true).slot = RT_NULL := by
  obtain ⟨h1, h2, h3, h4, h5, h6⟩ :=
    C8_dynamic_slot_written_unconditionally heapExhaustedKernel 7 "w" 1 2 3 4 5 6 8 9 9 16 64
  exact ⟨h1.2 (by decide), h2.2 (by decide), h3.2 (by decide),
         h4.2 (by decide), h5.2 (by decide), h6.2 (by decide)⟩

/-- C9: for every one of the six operations called with `is_dynamic`
false, the handle slot at return holds exactly its entry contents
(success or failure), and the control-block address handed to the `init`
entry point is those entry contents — the slot is only read, never
written. -/
theorem C9_static_slot_preserved (k : Kernel) (s : Ptr) (name : String)
    (v flag : Nat) (entry param : Nat) (stack : Ptr)
    (ssize prio tick : Nat) (pool : Ptr) (msz psz : Nat) :
    ((semaphore_generator k s name v flag false).slot = s ∧
     (semaphore_generator k s name v flag false).trace.head? =
       some (KernelCall.semInit s name v flag)) ∧
    ((thread_generator k s name entry param stack ssize prio tick false).slot = s ∧
     (thread_generator k s name entry param stack ssize prio tick false).trace.head? =
       some (KernelCall.threadInit s name entry param stack ssize prio tick)) ∧
    ((mutex_generator k s name flag false).slot = s ∧
     (mutex_generator k s name flag false).trace.head? =
       some (KernelCall.mutexInit s name flag)) ∧
    ((event_generator k s name flag false).slot = s ∧
     (event_generator k s name flag false).trace.head? =
       some (KernelCall.eventInit s name flag)) ∧
    ((mailbox_generator k s name pool msz flag false).slot = s ∧
     (mailbox_generator k s name pool msz flag false).trace.head? =
       some (KernelCall.mbInit s name pool msz flag)) ∧
    ((messagequeue_generator k s name pool msz psz flag false).slot = s ∧
     (messagequeue_generator k s name pool msz psz flag false).trace.head? =
       some (KernelCall.mqInit s name pool msz psz flag)) := by
  refine ⟨?_, ?_, ?_, ?_, ?_, ?_⟩ <;>
    simp only [semaphore_generator, thread_generator, mutex_generator,
      event_generator, mailbox_generator, messagequeue_generator,
      Bool.false_eq_true, if_false] <;>
    split <;> exact ⟨rfl, rfl⟩

/-- C10: for the three operations taking backing-storage arguments, a
dynamic call's entire outcome (status, slot contents, kernel-call trace)
is independent of the backing-storage argument: two runs differing only
in `stack_addr` (Thread) or `msgpool` (Mailbox/MessageQueue) produce
equal results. -/
theorem C10_dynamic_independent_of_backing_storage (k : Kernel) (s : Ptr)
    (name : String) (entry param : Nat) (stack1 stack2 : Ptr)
    (ssize prio tick : Nat) (pool1 pool2 : Ptr) (msz psz : Nat) (flag : Nat) :
    thread_generator k s name entry param stack1 ssize prio tick true =
      thread_generator k s name entry param stack2 ssize prio tick true ∧
    mailbox_generator k s name pool1 msz flag true =
      mailbox_generator k s name pool2 msz flag true ∧
    messagequeue_generator k s name pool1 msz psz flag true =
      messagequeue_generator k s name pool2 msz psz flag true := by
  refine ⟨?_, ?_, ?_⟩ <;>
    simp only [thread_generator, mailbox_generator, messagequeue_generator,
      if_true]
